import Mathlib

/-!
Verification of the book-catalog client (`pagina-principal.js` and the
`script.js` / `catalogo.js` variants).

The Record Store is the mutable array `books`, modelled as a `List Book`.
Each CRUD handler splits into a synchronous optimistic phase (everything
before the `fetch`) and a resolution phase (the code run when the `fetch`
settles, either the `try` continuation or the `catch`).  The resolution
phase is parametrised by the fetch outcome, so arbitrary interleavings of
operations can be expressed by composing phase functions in any order.
-/

set_option maxRecDepth 2000

/-- A JavaScript primitive value as it occurs in the record fields handled
by the catalog page (strings and numbers). -/
inductive Val
  | vStr (s : String)
  | vNum (n : Int)
deriving DecidableEq, Repr

/-- A raw book object as read from `localStorage` or the API by
`catalogo.js`: every alias key the normalizer consults, each either absent
or nullish (`none`) or holding a value (`some`).  JavaScript's `??`
operator treats `undefined` and `null` alike, so both are `none`. -/
structure RawBook where
  id : Option Val := none
  ID : Option Val := none
  titulo : Option Val := none
  title : Option Val := none
  autor : Option Val := none
  author : Option Val := none
  genero : Option Val := none
  genre : Option Val := none
  tipo : Option Val := none
  ano : Option Val := none
  year : Option Val := none
  publicationYear : Option Val := none
  descricao : Option Val := none
  body : Option Val := none
  description : Option Val := none
deriving DecidableEq, Repr

/-- The canonical record shape produced by `normalizarLivro`:
`{ id, titulo, autor, genero, ano, descricao }`.  Only `id` can be `null`
(the chain ends in `?? null`); every other field ends in a string
default, hence is never nullish. -/
structure NormBook where
  id : Option Val
  titulo : Val
  autor : Val
  genero : Val
  ano : Val
  descricao : Val
deriving DecidableEq, Repr

namespace Catalogo

/-- JavaScript `a ?? b` on our nullish-aware encoding. -/
def nullish (a b : Option Val) : Option Val :=
  match a with
  | some v => some v
  | none => b

/-- Normalization of a book object (`normalizarLivro` in `catalogo.js`),
object case: each canonical field is resolved through the chain of `??`
fallbacks of the source. -/
def normalizarLivroObj (raw : RawBook) : NormBook :=
  { id := nullish raw.id (nullish raw.ID none)
    titulo := (nullish raw.titulo raw.title).getD (Val.vStr "Título sem nome")
    autor := (nullish raw.autor raw.author).getD (Val.vStr "Autor desconhecido")
    genero := (nullish raw.genero (nullish raw.genre raw.tipo)).getD (Val.vStr "Outros")
    ano := (nullish raw.ano (nullish raw.year raw.publicationYear)).getD (Val.vStr "—")
    descricao := (nullish raw.descricao (nullish raw.body raw.description)).getD (Val.vStr "") }

/-- Full `normalizarLivro`: returns `null` (here `none`) when the input is
not an object (`!raw || typeof raw !== 'object'`), otherwise the
normalized record. -/
def normalizarLivro : Option RawBook → Option NormBook
  | none => none
  | some raw => some (normalizarLivroObj raw)

/-- Normalization of a list (`normalizarLista`): `.map(normalizarLivro)`
followed by `.filter(Boolean)`, which drops the `null` results. -/
def normalizarLista (rawList : List (Option RawBook)) : List NormBook :=
  (rawList.map normalizarLivro).reduceOption

/-- Re-reading a normalized record as a raw object: the six canonical
fields are present under their canonical keys, no alias keys exist. -/
def NormBook.toRaw (b : NormBook) : RawBook :=
  { id := b.id
    titulo := some b.titulo
    autor := some b.autor
    genero := some b.genero
    ano := some b.ano
    descricao := some b.descricao }

end Catalogo

/-! ## The Record Store and the CRUD handlers -/

/-- A book record as held in the `books` array.  Identities are numbers:
server-assigned positive ids, or negative placeholder ids produced by
`Date.now() * -1`.  Fields that `script.js` never sets (`genre`, `year`)
are modelled as the empty string there. -/
structure Book where
  id : Int
  title : String
  author : String
  body : String
  genre : String
  year : String
deriving DecidableEq, Repr, Inhabited

/-- The payload assembled by the form submit handlers (`data` in
`pagina-principal.js`, `payload` in `script.js`; the latter leaves
`year`/`genre` empty). -/
structure BookData where
  title : String
  author : String
  body : String
  year : String
  genre : String
deriving DecidableEq, Repr, Inhabited

/-- Body of a parsed gateway JSON response for a single record (the fields
the handlers actually read: `serverBook.id`, and for the `script.js`
update-merge also `title` and `body`). -/
structure SBook where
  id : Int
  title : String
  body : String
deriving DecidableEq, Repr, Inhabited

/-- Outcome of a `fetch` call: a response (with its `res.ok` flag and
parsed body) or a transport failure that makes `fetch` reject, carrying
the rejection's `err.message`. -/
inductive FetchOutcome
  | response (ok : Bool) (sb : SBook)
  | netfail (msg : String)
deriving DecidableEq, Repr

/-- User-visible notifications emitted by the handlers: a re-render of the
list, a blocking `alert(msg)` (`pagina-principal.js`), or a
`showMessage(msg, kind)` banner (`script.js`). -/
inductive Notice
  | render
  | alert (msg : String)
  | message (msg : String) (kind : String)
deriving DecidableEq, Repr

/-- Whether a notice reports an error to the user: every `alert` in
`pagina-principal.js` is an error report, and `showMessage` with kind
`error` in `script.js`. -/
def Notice.isError : Notice → Bool
  | .alert _ => true
  | .message _ kind => kind == "error"
  | _ => false

/-- A network request issued to the remote resource. -/
inductive GatewayCall
  | post (d : BookData)
  | put (id : Int) (d : BookData)
  | deleteReq (id : Int)
deriving DecidableEq, Repr

/-- Result of running one handler to completion: final store contents,
the notices emitted, and the gateway calls issued. -/
structure OpResult where
  store : List Book
  notices : List Notice
  calls : List GatewayCall
deriving DecidableEq, Repr

/-- JavaScript `Array.prototype.findIndex`, returning `none` instead of
`-1` when no element matches. -/
def findIndexBy (p : Book → Bool) : List Book → Option Nat
  | [] => none
  | b :: bs => if p b then some 0 else (findIndexBy p bs).map (· + 1)

/-- In-place update of the element at an index (`books[idx] = f(books[idx])`
for an index known to be in range). -/
def listModify (f : Book → Book) : Nat → List Book → List Book
  | _, [] => []
  | 0, b :: bs => f b :: bs
  | n + 1, b :: bs => b :: listModify f n bs

/-- JavaScript `books[idx] = x` as a list operation: replaces the element
when `idx` is in range and appends when `idx` equals the length.  (For
`idx` beyond the length JavaScript would create holes, which a `List`
cannot represent; the value then lands at the end.  No claim exercises
that case.) -/
def jsSetAt (idx : Nat) (x : Book) (l : List Book) : List Book :=
  l.take idx ++ x :: l.drop (idx + 1)

/-- JavaScript `books.splice(idx, 0, x)`: insert at `idx`, with `idx`
clamped to the array length (`take`/`drop` clamp the same way). -/
def spliceInsert (idx : Nat) (x : Book) (l : List Book) : List Book :=
  l.take idx ++ x :: l.drop idx

/-- The sequence of identities of a store, in store order. -/
def ids (books : List Book) : List Int :=
  books.map (·.id)

/-- Lookup of a record by identity (the spec's `findByIdentity`; in the
code, `books.find`-style access via `findIndex` on `b.id == id`). -/
def findByIdentity (id : Int) (books : List Book) : Option Book :=
  books.find? (fun b => b.id == id)

/-- The record built by the optimistic create:
`{ id: tempId, ...bookData }` with `tempId = Date.now() * -1`. -/
def mkOptimistic (tempId : Int) (d : BookData) : Book :=
  { id := tempId, title := d.title, author := d.author, body := d.body,
    genre := d.genre, year := d.year }

/-- Field replacement of the optimistic update:
`{ ...books[idx], ...updatedData }` — every payload field overwrites the
record's, the identity is untouched. -/
def applyUpdate (d : BookData) (b : Book) : Book :=
  { b with
    title := d.title
    author := d.author
    body := d.body
    year := d.year
    genre := d.genre }

/-- Merge of a server response body into a record
(`{ ...books[idx], ...serverBook }` in the `script.js` update success
path; the echoed `userId` field is never read by any code and is
dropped). -/
def mergeServer (b : Book) (sb : SBook) : Book :=
  { b with
    id := sb.id
    title := sb.title
    body := sb.body }

/-! ## Handlers of `pagina-principal.js` (namespace `PP`)

`handleCreate` there reads `Date.now()` once; the model takes that clock
reading as the parameter `now`, so the placeholder identity is
`-(now : Int)`. -/

namespace PP

/-- Placeholder identity `Date.now() * -1` for a clock reading `now`. -/
def tempId (now : Nat) : Int :=
  -(now : Int)

/-- Synchronous phase of `handleCreate`: build the optimistic record and
`unshift` it (then `renderBooks()` runs — notices are accounted in
`handleCreate`). -/
def createStart (now : Nat) (d : BookData) (books : List Book) : List Book :=
  mkOptimistic (tempId now) d :: books

/-- Resolution phase of `handleCreate`.  This file never checks `res.ok`:
any response reaches `res.json()` and commits; only a rejected `fetch`
takes the `catch` rollback, which filters out the placeholder id. -/
def createResolve (now : Nat) (outcome : FetchOutcome) (books : List Book) :
    List Book × List Notice :=
  match outcome with
  | .response _ sb =>
    match findIndexBy (fun b => b.id == tempId now) books with
    | some idx => (listModify (fun b => { b with id := sb.id }) idx books, [Notice.render])
    | none => (books, [])
  | .netfail _ =>
    (books.filter (fun b => b.id != tempId now),
     [Notice.render, Notice.alert "Falha ao salvar o livro no servidor. Tente novamente."])

/-- Whole `handleCreate` run: optimistic phase, one render, the POST, and
the resolution phase. -/
def handleCreate (now : Nat) (d : BookData) (outcome : FetchOutcome)
    (books : List Book) : OpResult :=
  let booksOpt := createStart now d books
  let r := createResolve now outcome booksOpt
  { store := r.1, notices := Notice.render :: r.2, calls := [GatewayCall.post d] }

/-- Synchronous phase of `handleUpdate`: locate the record (loose `==` on
ids), capture the index, a copy `oldBook` of the record, and apply the
optimistic field replacement.  `none` is the `idx === -1` early return. -/
def updateStart (id : Int) (d : BookData) (books : List Book) :
    Option (Nat × Book × List Book) :=
  match findIndexBy (fun b => b.id == id) books with
  | none => none
  | some idx => some (idx, books.getD idx default, listModify (applyUpdate d) idx books)

/-- Resolution phase of `handleUpdate`: the success path touches nothing
(no `res.ok` check, the response body is ignored); the `catch` writes
`oldBook` back at the index captured before the PUT was issued. -/
def updateResolve (idx : Nat) (oldBook : Book) (outcome : FetchOutcome)
    (books : List Book) : List Book × List Notice :=
  match outcome with
  | .response _ _ => (books, [])
  | .netfail _ =>
    (jsSetAt idx oldBook books,
     [Notice.render, Notice.alert "Falha ao salvar a edição no servidor. Tente novamente."])

/-- Whole `handleUpdate` run. -/
def handleUpdate (id : Int) (d : BookData) (outcome : FetchOutcome)
    (books : List Book) : OpResult :=
  match updateStart id d books with
  | none => { store := books, notices := [Notice.alert "Livro não encontrado."], calls := [] }
  | some (idx, oldBook, booksOpt) =>
    let r := updateResolve idx oldBook outcome booksOpt
    { store := r.1, notices := Notice.render :: r.2, calls := [GatewayCall.put id d] }

/-- Synchronous phase of `handleDelete`: locate the record, capture index
and record, `splice(idx, 1)`.  `none` is the silent `idx === -1` return. -/
def deleteStart (id : Int) (books : List Book) : Option (Nat × Book × List Book) :=
  match findIndexBy (fun b => b.id == id) books with
  | none => none
  | some idx => some (idx, books.getD idx default, books.eraseIdx idx)

/-- Resolution phase of `handleDelete`: success touches nothing (no
`res.ok` check); the `catch` re-inserts the removed record with
`splice(idx, 0, removed)` at the index captured before the DELETE. -/
def deleteResolve (idx : Nat) (removed : Book) (outcome : FetchOutcome)
    (books : List Book) : List Book × List Notice :=
  match outcome with
  | .response _ _ => (books, [])
  | .netfail _ =>
    (spliceInsert idx removed books,
     [Notice.render, Notice.alert "Falha ao excluir o livro no servidor. Tente novamente."])

/-- Whole `handleDelete` run.  An absent identity returns silently:
no alert, no render, no network call. -/
def handleDelete (id : Int) (outcome : FetchOutcome) (books : List Book) : OpResult :=
  match deleteStart id books with
  | none => { store := books, notices := [], calls := [] }
  | some (idx, removed, booksOpt) =>
    let r := deleteResolve idx removed outcome booksOpt
    { store := r.1, notices := Notice.render :: r.2, calls := [GatewayCall.deleteReq id] }

/-- JavaScript `String.prototype.trim`: strip leading and trailing
whitespace.  (Lean's own `String.trim` is not kernel-reducible, so the
model works on the character list.) -/
def jsTrim (s : String) : String :=
  String.mk (((s.toList.dropWhile Char.isWhitespace).reverse.dropWhile
    Char.isWhitespace).reverse)

/-- The form fields read by the submit handler. -/
structure FormInput where
  idField : Option Int
  titulo : String
  autor : String
  descricao : String
  ano : String
  genero : String
deriving DecidableEq, Repr

/-- Test of the year against the regex `^\d{4}$` after `trim`. -/
def isFourDigits (s : String) : Bool :=
  s.length == 4 && s.all (·.isDigit)

/-- The validation chain of the submit handler, in source order; returns
the alert message of the first failing check. -/
def formError (f : FormInput) : Option String :=
  if ¬ isFourDigits (jsTrim f.ano) then some "O ano precisa ter exatamente 4 números."
  else if (jsTrim f.titulo).length < 3 then some "O título precisa ter pelo menos 3 caracteres."
  else if jsTrim f.genero = "" then some "Selecione um gênero."
  else none

/-- The payload built from the validated form fields. -/
def formData (f : FormInput) : BookData :=
  { title := jsTrim f.titulo, author := jsTrim f.autor, body := jsTrim f.descricao,
    year := jsTrim f.ano, genre := jsTrim f.genero }

/-- The submit handler: validations first (an invalid form alerts and
stops before any store mutation or network call), then dispatch on the
hidden id field to `handleUpdate` or `handleCreate`. -/
def formSubmit (f : FormInput) (now : Nat) (outcome : FetchOutcome)
    (books : List Book) : OpResult :=
  match formError f with
  | some msg => { store := books, notices := [Notice.alert msg], calls := [] }
  | none =>
    match f.idField with
    | some id => handleUpdate id (formData f) outcome books
    | none => handleCreate now (formData f) outcome books

/-- The render pass of `pagina-principal.js`: shows only the first four
records; when nothing is shown it prints the empty message and returns
early, skipping `localStorage.setItem`; otherwise it overwrites the
`livros` slot with the serialization of the whole store.  Result: the
displayed records and the new snapshot slot. -/
def renderBooks (books : List Book) (snapshot : Option (List Book)) :
    List Book × Option (List Book) :=
  let livrosMostrados := books.take 4
  if livrosMostrados.length = 0 then ([], snapshot)
  else (livrosMostrados, some books)

end PP

/-! ## Handlers of `script.js` (namespace `SC`)

The differences from `pagina-principal.js`: every fetch result is checked
with `if (!res.ok) throw`, so a non-success status takes the same `catch`
as a transport failure; messages go through `showMessage`; the update
success path merges the server echo into the record; delete removes by
`filter` instead of `splice`. -/

namespace SC

/-- `findBookIndexById`: `findIndex` on `String(b.id) === String(id)`.
With numeric identities on both sides this is identity equality. -/
def findBookIndexById (id : Int) (books : List Book) : Option Nat :=
  findIndexBy (fun b => b.id == id) books

/-- Synchronous phase of the optimistic create (`unshift`, render, info
banner). -/
def createStart (now : Nat) (d : BookData) (books : List Book) : List Book :=
  mkOptimistic (PP.tempId now) d :: books

/-- Resolution phase of `handleCreate`: a non-ok response throws
`'POST falhou'` before the body is used, taking the same rollback as a
transport failure; on success the placeholder is looked up again and, if
still present, given the server id. -/
def createResolve (now : Nat) (outcome : FetchOutcome) (books : List Book) :
    List Book × List Notice :=
  match outcome with
  | .response true sb =>
    (match findBookIndexById (PP.tempId now) books with
     | some idx =>
       ((listModify (fun b => { b with id := sb.id }) idx books),
        [Notice.render, Notice.message "Livro criado com sucesso!" "success"])
     | none => (books, [Notice.message "Livro criado com sucesso!" "success"]))
  | .response false _ =>
    (books.filter (fun b => b.id != PP.tempId now),
     [Notice.render, Notice.message "Erro ao criar livro: POST falhou" "error"])
  | .netfail msg =>
    (books.filter (fun b => b.id != PP.tempId now),
     [Notice.render, Notice.message ("Erro ao criar livro: " ++ msg) "error"])

/-- Whole `handleCreate` run of `script.js`. -/
def handleCreate (now : Nat) (d : BookData) (outcome : FetchOutcome)
    (books : List Book) : OpResult :=
  let booksOpt := createStart now d books
  let r := createResolve now outcome booksOpt
  { store := r.1
    notices := Notice.render :: Notice.message "Criando livro..." "info" :: r.2
    calls := [GatewayCall.post d] }

/-- Synchronous phase of `handleUpdate` (identical shape to the
`pagina-principal.js` one). -/
def updateStart (id : Int) (d : BookData) (books : List Book) :
    Option (Nat × Book × List Book) :=
  match findBookIndexById id books with
  | none => none
  | some idx => some (idx, books.getD idx default, listModify (applyUpdate d) idx books)

/-- Resolution phase of `handleUpdate`: on an ok response the server echo
is merged into `books[idx]` (read at resolution time, at the cached
index; `getD` with a default stands for the out-of-range read, which no
claim exercises); a non-ok response throws `'PUT falhou'`; both failure
paths write `oldBook` back at the cached index. -/
def updateResolve (idx : Nat) (oldBook : Book) (outcome : FetchOutcome)
    (books : List Book) : List Book × List Notice :=
  match outcome with
  | .response true sb =>
    (jsSetAt idx (mergeServer (books.getD idx default) sb) books,
     [Notice.render, Notice.message "Livro atualizado com sucesso!" "success"])
  | .response false _ =>
    (jsSetAt idx oldBook books,
     [Notice.render, Notice.message "Erro ao atualizar livro: PUT falhou" "error"])
  | .netfail msg =>
    (jsSetAt idx oldBook books,
     [Notice.render, Notice.message ("Erro ao atualizar livro: " ++ msg) "error"])

/-- Whole `handleUpdate` run of `script.js`; an absent identity reports an
error banner with no mutation and no network call. -/
def handleUpdate (id : Int) (d : BookData) (outcome : FetchOutcome)
    (books : List Book) : OpResult :=
  match updateStart id d books with
  | none =>
    { store := books
      notices := [Notice.message "Livro para editar não encontrado." "error"]
      calls := [] }
  | some (idx, oldBook, booksOpt) =>
    let r := updateResolve idx oldBook outcome booksOpt
    { store := r.1
      notices := Notice.render :: Notice.message "Atualizando livro..." "info" :: r.2
      calls := [GatewayCall.put id d] }

/-- Synchronous phase of `handleDelete`: capture index and record, then
remove by strict-equality `filter` (removes every record with that id). -/
def deleteStart (id : Int) (books : List Book) : Option (Nat × Book × List Book) :=
  match findBookIndexById id books with
  | none => none
  | some idx => some (idx, books.getD idx default, books.filter (fun b => b.id != id))

/-- Resolution phase of `handleDelete`: a non-ok response throws
`'DELETE falhou'`; both failure paths re-insert the removed record at the
cached index with `splice(idx, 0, removed)`. -/
def deleteResolve (idx : Nat) (removed : Book) (outcome : FetchOutcome)
    (books : List Book) : List Book × List Notice :=
  match outcome with
  | .response true _ => (books, [Notice.message "Livro excluído com sucesso!" "success"])
  | .response false _ =>
    (spliceInsert idx removed books,
     [Notice.render, Notice.message "Erro ao excluir livro: DELETE falhou" "error"])
  | .netfail msg =>
    (spliceInsert idx removed books,
     [Notice.render, Notice.message ("Erro ao excluir livro: " ++ msg) "error"])

/-- Whole `handleDelete` run of `script.js`; an absent identity reports an
error banner with no mutation and no network call. -/
def handleDelete (id : Int) (outcome : FetchOutcome) (books : List Book) : OpResult :=
  match deleteStart id books with
  | none =>
    { store := books
      notices := [Notice.message "Livro para excluir não encontrado." "error"]
      calls := [] }
  | some (idx, removed, booksOpt) =>
    let r := deleteResolve idx removed outcome booksOpt
    { store := r.1
      notices := Notice.render :: Notice.message "Excluindo livro..." "info" :: r.2
      calls := [GatewayCall.deleteReq id] }

/-- Outcome of the list fetch (`GET ?_limit=10`): a response with its
`res.ok` flag and parsed array, or a transport failure. -/
inductive ListOutcome
  | response (ok : Bool) (data : List SBook)
  | netfail (msg : String)
deriving DecidableEq, Repr

/-- The `fetchBooks` of `script.js`: `if (!res.ok) throw`, else map the
items into the local shape (`author` is absent on the placeholder posts,
so `item.author || ''` yields the empty string); on any failure the store
is untouched and an error banner is shown. -/
def fetchBooks (outcome : ListOutcome) (books : List Book) :
    List Book × List Notice :=
  match outcome with
  | .response true data =>
    (data.map (fun item =>
      { id := item.id, title := item.title, body := item.body,
        author := "", genre := "", year := "" }),
     [Notice.render])
  | .response false _ =>
    (books, [Notice.message "Erro ao buscar livros: Falha ao carregar livros" "error"])
  | .netfail msg =>
    (books, [Notice.message ("Erro ao buscar livros: " ++ msg) "error"])

end SC

/-! ## Basic lemmas about the list helpers -/

theorem findIndexBy_cons_pos {p : Book → Bool} {b : Book} (l : List Book)
    (hb : p b = true) : findIndexBy p (b :: l) = some 0 := by
  simp [findIndexBy, hb]

theorem findIndexBy_lt_length {p : Book → Bool} :
    ∀ {l : List Book} {i : Nat}, findIndexBy p l = some i → i < l.length := by
  intro l
  induction l with
  | nil => intro i h; simp [findIndexBy] at h
  | cons b bs ih =>
    intro i h
    by_cases hb : p b
    · simp [findIndexBy, hb] at h
      simp [List.length_cons, ← h]
    · simp [findIndexBy, hb, Option.map_eq_some'] at h
      obtain ⟨j, hj, hij⟩ := h
      have hlt := ih hj
      simp only [List.length_cons, ← hij]
      omega

theorem findIndexBy_getD {p : Book → Bool} :
    ∀ {l : List Book} {i : Nat}, findIndexBy p l = some i →
      p (l.getD i default) = true := by
  intro l
  induction l with
  | nil => intro i h; simp [findIndexBy] at h
  | cons b bs ih =>
    intro i h
    by_cases hb : p b
    · simp [findIndexBy, hb] at h
      simp [← h, hb]
    · simp [findIndexBy, hb, Option.map_eq_some'] at h
      obtain ⟨j, hj, hij⟩ := h
      subst hij
      simpa using ih hj

theorem findIndexBy_eq_none {p : Book → Bool} :
    ∀ {l : List Book}, findIndexBy p l = none ↔ ∀ b ∈ l, p b = false := by
  intro l
  induction l with
  | nil => simp [findIndexBy]
  | cons b bs ih =>
    by_cases hb : p b
    · simp [findIndexBy, hb]
    · simp [findIndexBy, hb, ih]

theorem find?_of_findIndexBy {p : Book → Bool} :
    ∀ {l : List Book} {i : Nat}, findIndexBy p l = some i →
      l.find? p = some (l.getD i default) := by
  intro l
  induction l with
  | nil => intro i h; simp [findIndexBy] at h
  | cons b bs ih =>
    intro i h
    by_cases hb : p b
    · simp [findIndexBy, hb] at h
      simp [List.find?, hb, ← h]
    · simp [findIndexBy, hb, Option.map_eq_some'] at h
      obtain ⟨j, hj, hij⟩ := h
      subst hij
      simp only [List.find?, hb, List.getD_cons_succ]
      exact ih hj

theorem listModify_length (f : Book → Book) :
    ∀ (i : Nat) (l : List Book), (listModify f i l).length = l.length := by
  intro i l
  induction l generalizing i with
  | nil => simp [listModify]
  | cons b bs ih =>
    cases i with
    | zero => simp [listModify]
    | succ n => simp [listModify, ih]

theorem jsSetAt_listModify_restore (f : Book → Book) :
    ∀ (l : List Book) (i : Nat), i < l.length →
      jsSetAt i (l.getD i default) (listModify f i l) = l := by
  intro l
  induction l with
  | nil => intro i h; simp at h
  | cons b bs ih =>
    intro i h
    cases i with
    | zero => simp [jsSetAt, listModify]
    | succ n =>
      simp only [List.length_cons, Nat.succ_lt_succ_iff] at h
      simp only [listModify, jsSetAt, List.getD_cons_succ, List.take_succ_cons,
        List.drop_succ_cons, List.cons_append, List.cons.injEq, true_and]
      exact ih n h

theorem spliceInsert_eraseIdx_restore :
    ∀ (l : List Book) (i : Nat), i < l.length →
      spliceInsert i (l.getD i default) (l.eraseIdx i) = l := by
  intro l
  induction l with
  | nil => intro i h; simp at h
  | cons b bs ih =>
    intro i h
    cases i with
    | zero => simp [spliceInsert, List.eraseIdx]
    | succ n =>
      simp only [List.length_cons, Nat.succ_lt_succ_iff] at h
      simp only [List.eraseIdx, spliceInsert, List.getD_cons_succ, List.take_succ_cons,
        List.drop_succ_cons, List.cons_append, List.cons.injEq, true_and]
      exact ih n h

theorem ids_listModify_setId (x : Int) :
    ∀ (l : List Book) (i : Nat), ids (listModify (fun b => { b with id := x }) i l) =
      (ids l).set i x := by
  intro l
  induction l with
  | nil => intro i; simp [listModify, ids]
  | cons b bs ih =>
    intro i
    cases i with
    | zero => simp [listModify, ids]
    | succ n => simp [listModify, ids, List.set]; exact ih n

theorem ids_listModify_applyUpdate (d : BookData) :
    ∀ (l : List Book) (i : Nat), ids (listModify (applyUpdate d) i l) = ids l := by
  intro l
  induction l with
  | nil => intro i; simp [listModify]
  | cons b bs ih =>
    intro i
    cases i with
    | zero => simp [listModify, ids, applyUpdate]
    | succ n => simp [listModify, ids]; simpa [ids] using ih n

theorem getD_mem : ∀ (l : List Book) (i : Nat), i < l.length →
    l.getD i default ∈ l := by
  intro l
  induction l with
  | nil => intro i h; simp at h
  | cons b bs ih =>
    intro i h
    cases i with
    | zero => simp
    | succ n =>
      simp only [List.length_cons, Nat.succ_lt_succ_iff] at h
      simp only [List.getD_cons_succ, List.mem_cons]
      exact Or.inr (ih n h)

theorem mem_of_mem_set {x a : Int} :
    ∀ {l : List Int} {i : Nat}, a ∈ l.set i x → a = x ∨ a ∈ l := by
  intro l
  induction l with
  | nil => intro i h; simp at h
  | cons b bs ih =>
    intro i h
    cases i with
    | zero =>
      simp only [List.set, List.mem_cons] at h
      rcases h with h | h
      · exact Or.inl h
      · exact Or.inr (List.mem_cons_of_mem _ h)
    | succ n =>
      simp only [List.set, List.mem_cons] at h
      rcases h with h | h
      · exact Or.inr (by simp [h])
      · rcases ih h with h' | h'
        · exact Or.inl h'
        · exact Or.inr (List.mem_cons_of_mem _ h')

theorem nodup_set_fresh {x : Int} :
    ∀ {l : List Int} {i : Nat}, l.Nodup → x ∉ l → (l.set i x).Nodup := by
  intro l
  induction l with
  | nil => intro i h _; simp
  | cons b bs ih =>
    intro i hnd hx
    simp only [List.nodup_cons] at hnd
    simp only [List.mem_cons, not_or] at hx
    cases i with
    | zero =>
      simp only [List.set, List.nodup_cons]
      exact ⟨hx.2, hnd.2⟩
    | succ n =>
      simp only [List.set, List.nodup_cons]
      refine ⟨fun hb => ?_, ih hnd.2 hx.2⟩
      rcases mem_of_mem_set hb with h | h
      · exact hx.1 h.symm
      · exact hnd.1 h

theorem ids_filter_nodup {p : Book → Bool} {l : List Book} (h : (ids l).Nodup) :
    (ids (l.filter p)).Nodup := by
  have hsub : List.Sublist (l.filter p) l := List.filter_sublist l
  exact List.Nodup.sublist (List.Sublist.map _ hsub) h

theorem ids_eraseIdx_nodup {i : Nat} {l : List Book} (h : (ids l).Nodup) :
    (ids (l.eraseIdx i)).Nodup := by
  have hsub : List.Sublist (l.eraseIdx i) l := List.eraseIdx_sublist l i
  exact List.Nodup.sublist (List.Sublist.map _ hsub) h

/-! ## Shared concrete fixtures for scenarios -/

/-- A record with a server-assigned identity, used in concrete scenarios. -/
def bookA : Book :=
  { id := 1, title := "Dom Casmurro", author := "Machado de Assis", body := "d",
    genre := "Romance", year := "1899" }

/-- A second record with a server-assigned identity. -/
def bookB : Book :=
  { id := 2, title := "Iracema", author := "Alencar", body := "e",
    genre := "Romance", year := "1865" }

/-- A record with identity 5, for the update scenarios. -/
def book5 : Book :=
  { id := 5, title := "Quincas Borba", author := "Machado de Assis", body := "f",
    genre := "Romance", year := "1891" }

/-- The create payload of the spec's scenario. -/
def dDune : BookData :=
  { title := "Dune", author := "Herrick", body := "", year := "1965", genre := "Ficção" }

/-- An update payload. -/
def dUpd : BookData :=
  { title := "Dune II", author := "Herrick", body := "g", year := "1969", genre := "Ficção" }

/-- A second create payload, for interleaving scenarios. -/
def dNew : BookData :=
  { title := "Neuromancer", author := "Gibson", body := "h", year := "1984", genre := "Ficção" }

/-! ## Helper lemmas about the handlers -/

theorem nullish_none (a : Option Val) : Catalogo.nullish a none = a := by
  cases a <;> rfl

theorem nullish_none_left (b : Option Val) : Catalogo.nullish none b = b := rfl

theorem nullish_some (v : Val) (b : Option Val) :
    Catalogo.nullish (some v) b = some v := rfl

theorem createResolve_response (now : Nat) (okFlag : Bool) (sb : SBook)
    (d : BookData) (books : List Book) :
    PP.createResolve now (.response okFlag sb) (PP.createStart now d books) =
      ({ mkOptimistic (PP.tempId now) d with id := sb.id } :: books, [Notice.render]) := by
  simp [PP.createResolve, PP.createStart, findIndexBy, mkOptimistic, listModify]

theorem createResolve_netfail (now : Nat) (msg : String) (d : BookData)
    (books : List Book) (hFresh : ∀ b ∈ books, b.id ≠ PP.tempId now) :
    PP.createResolve now (.netfail msg) (PP.createStart now d books) =
      (books,
       [Notice.render, Notice.alert "Falha ao salvar o livro no servidor. Tente novamente."]) := by
  have hkeep : books.filter (fun b => b.id != PP.tempId now) = books :=
    List.filter_eq_self.mpr (fun b hb => by simpa using hFresh b hb)
  simp [PP.createResolve, PP.createStart, mkOptimistic, hkeep]

theorem findIndexBy_of_findByIdentity {id : Int} {books : List Book} {old : Book}
    (hFound : findByIdentity id books = some old) :
    ∃ idx, findIndexBy (fun b => b.id == id) books = some idx ∧
      idx < books.length ∧ books.getD idx default = old := by
  cases hc : findIndexBy (fun b => b.id == id) books with
  | none =>
    exfalso
    have hall := findIndexBy_eq_none.mp hc
    have hnone : books.find? (fun b => b.id == id) = none :=
      List.find?_eq_none.mpr (fun b hb => by simp [hall b hb])
    rw [findByIdentity, hnone] at hFound
    exact Option.noConfusion hFound
  | some idx =>
    refine ⟨idx, rfl, findIndexBy_lt_length hc, ?_⟩
    have := find?_of_findIndexBy hc
    rw [findByIdentity, this] at hFound
    exact Option.some.inj hFound

theorem handleUpdate_netfail_restores {id : Int} {books : List Book} {old : Book}
    (d : BookData) (msg : String) (hFound : findByIdentity id books = some old) :
    PP.handleUpdate id d (.netfail msg) books =
      { store := books
        notices := [Notice.render, Notice.render,
          Notice.alert "Falha ao salvar a edição no servidor. Tente novamente."]
        calls := [GatewayCall.put id d] } := by
  obtain ⟨idx, hIdx, hlt, hold⟩ := findIndexBy_of_findByIdentity hFound
  simp only [PP.handleUpdate, PP.updateStart, hIdx, PP.updateResolve]
  have hres := jsSetAt_listModify_restore (applyUpdate d) books idx hlt
  rw [hres]

theorem renderBooks_snd_of_ne_nil (books : List Book) (snapshot : Option (List Book))
    (hne : books ≠ []) : (PP.renderBooks books snapshot).2 = some books := by
  simp [PP.renderBooks, hne]

/-! ## Claim theorems -/

/-- C8: the normalization function is idempotent — normalizing the
canonical record produced from any object again yields the same record,
field by field — and `normalizarLista` maps `normalizarLivro` over the
input and keeps exactly the successful results in their original order
(`filterMap`); in particular it distributes over concatenation. -/
theorem normalizar_idempotent_and_lista_filters :
    (∀ raw : RawBook,
      Catalogo.normalizarLivro
          (some (Catalogo.NormBook.toRaw (Catalogo.normalizarLivroObj raw))) =
        Catalogo.normalizarLivro (some raw)) ∧
    (∀ l : List (Option RawBook),
      Catalogo.normalizarLista l = l.filterMap Catalogo.normalizarLivro) ∧
    (∀ l₁ l₂ : List (Option RawBook),
      Catalogo.normalizarLista (l₁ ++ l₂) =
        Catalogo.normalizarLista l₁ ++ Catalogo.normalizarLista l₂) := by
  refine ⟨?_, ?_, ?_⟩
  · intro raw
    simp only [Catalogo.normalizarLivro, Option.some.injEq]
    unfold Catalogo.normalizarLivroObj Catalogo.NormBook.toRaw
    dsimp only
    simp only [nullish_some, nullish_none_left, nullish_none, Option.getD_some]
  · intro l
    simp [Catalogo.normalizarLista, List.reduceOption, List.filterMap_map]
  · intro l₁ l₂
    simp [Catalogo.normalizarLista, List.reduceOption, List.filterMap_append]

/-- C1: for every create payload, if the gateway POST fails (the `fetch`
rejects) and the placeholder identity is fresh for the store, the store
after `handleCreate` is the very list it held before the operation began,
and exactly one error notification (the rollback alert) is emitted. -/
theorem create_failure_restores_store (now : Nat) (d : BookData) (msg : String)
    (books : List Book) (hFresh : ∀ b ∈ books, b.id ≠ PP.tempId now) :
    (PP.handleCreate now d (.netfail msg) books).store = books ∧
    (PP.handleCreate now d (.netfail msg) books).notices.countP Notice.isError = 1 := by
  have h := createResolve_netfail now msg d books hFresh
  constructor
  · simp [PP.handleCreate, h]
  · simp [PP.handleCreate, h, List.countP_cons, Notice.isError]

/-- Witness for C1 at a concrete store and payload. -/
theorem create_failure_restores_store_witness :
    (PP.handleCreate 1000 dDune (.netfail "Failed to fetch") [bookA]).store = [bookA] ∧
    (PP.handleCreate 1000 dDune (.netfail "Failed to fetch") [bookA]).notices.countP
      Notice.isError = 1 :=
  create_failure_restores_store 1000 dDune "Failed to fetch" [bookA] (by decide)

/-- C2: for every create payload, when the placeholder is fresh and the
store contains neither the server identity nor the placeholder, a
successful gateway response leaves exactly one record with the
server-assigned identity and none with the placeholder identity; the
optimistic phase on an empty store immediately yields length 1 with the
(negative) placeholder identity, and a success returning identity 42 on
an empty store yields exactly the singleton store with identity 42. -/
theorem create_success_commits_server_identity (now : Nat) (d : BookData) (sb : SBook)
    (books : List Book)
    (hTemp : ∀ b ∈ books, b.id ≠ PP.tempId now)
    (hSid : ∀ b ∈ books, b.id ≠ sb.id)
    (hNe : sb.id ≠ PP.tempId now) (hNow : 0 < now) :
    ((PP.handleCreate now d (.response true sb) books).store.countP
        (fun b => b.id == sb.id) = 1 ∧
      ∀ b ∈ (PP.handleCreate now d (.response true sb) books).store,
        b.id ≠ PP.tempId now) ∧
    (PP.createStart now d [] = [mkOptimistic (PP.tempId now) d] ∧ PP.tempId now < 0) ∧
    ids (PP.handleCreate now d (.response true ⟨42, sb.title, sb.body⟩) []).store = [42] := by
  refine ⟨⟨?_, ?_⟩, ⟨rfl, ?_⟩, ?_⟩
  · simp only [PP.handleCreate, createResolve_response, List.countP_cons]
    have hz : books.countP (fun b => b.id == sb.id) = 0 :=
      List.countP_eq_zero.mpr (fun b hb => by simpa using hSid b hb)
    simp [hz]
  · simp only [PP.handleCreate, createResolve_response]
    intro b hb
    rcases List.mem_cons.mp hb with h | h
    · subst h; simpa using hNe
    · exact hTemp b h
  · simp only [PP.tempId]
    omega
  · simp [PP.handleCreate, createResolve_response, ids]

/-- Witness for C2: empty store, the spec's `Dune` payload, server id 42. -/
theorem create_success_commits_server_identity_witness :
    ((PP.handleCreate 1000 dDune (.response true ⟨42, "Dune", ""⟩) []).store.countP
        (fun b => b.id == (42 : Int)) = 1 ∧
      ∀ b ∈ (PP.handleCreate 1000 dDune (.response true ⟨42, "Dune", ""⟩) []).store,
        b.id ≠ PP.tempId 1000) ∧
    (PP.createStart 1000 dDune [] = [mkOptimistic (PP.tempId 1000) dDune] ∧
      PP.tempId 1000 < 0) ∧
    ids (PP.handleCreate 1000 dDune (.response true ⟨42, "Dune", ""⟩) []).store = [42] :=
  create_success_commits_server_identity 1000 dDune ⟨42, "Dune", ""⟩ []
    (by decide) (by decide) (by decide) (by decide)

/-- C3: for every update on an identity present in the store, a failed
gateway PUT leaves the store exactly as it was before the operation, so
looking the identity up afterwards returns the record (the full prior
snapshot) that was there before. -/
theorem update_failure_restores_record (id : Int) (d : BookData) (msg : String)
    (books : List Book) (old : Book) (hFound : findByIdentity id books = some old) :
    (PP.handleUpdate id d (.netfail msg) books).store = books ∧
    findByIdentity id (PP.handleUpdate id d (.netfail msg) books).store = some old := by
  have h := handleUpdate_netfail_restores d msg hFound
  rw [h]
  exact ⟨rfl, hFound⟩

/-- Witness for C3 at a concrete store: identity 5 present, PUT fails. -/
theorem update_failure_restores_record_witness :
    (PP.handleUpdate 5 dUpd (.netfail "Failed to fetch") [bookA, book5]).store =
      [bookA, book5] ∧
    findByIdentity 5 (PP.handleUpdate 5 dUpd (.netfail "Failed to fetch")
      [bookA, book5]).store = some book5 :=
  update_failure_restores_record 5 dUpd "Failed to fetch" [bookA, book5] book5 (by decide)

/-- C5 counterexample: in `pagina-principal.js` a create whose response
has a non-success status (here with body id 777) is committed — the store
ends with the server id and zero error notifications — instead of taking
the rollback path. -/
theorem non_ok_status_commits_cex :
    (PP.handleCreate 9 dDune (.response false ⟨777, "t", "b"⟩) []).store =
      [{ mkOptimistic (-9) dDune with id := 777 }] ∧
    (PP.handleCreate 9 dDune (.response false ⟨777, "t", "b"⟩) []).notices.countP
      Notice.isError = 0 := by
  constructor
  · simp [PP.handleCreate, createResolve_response, PP.tempId]
  · simp [PP.handleCreate, createResolve_response, List.countP_cons, Notice.isError]

/-- C5 amended: in `script.js` every gateway operation (list, create,
update, delete) treats a non-success status exactly like a transport
failure — same resulting store as the transport-failure branch, and
exactly one error notification — so there a non-success status on a
mutation always takes the rollback path. -/
theorem sc_non_ok_status_rolls_back (now : Nat) (sb : SBook) (msg : String)
    (idx : Nat) (old : Book) (books : List Book) (data : List SBook) :
    ((SC.createResolve now (.response false sb) books).1 =
        (SC.createResolve now (.netfail msg) books).1 ∧
      (SC.createResolve now (.response false sb) books).2.countP Notice.isError = 1) ∧
    ((SC.updateResolve idx old (.response false sb) books).1 =
        (SC.updateResolve idx old (.netfail msg) books).1 ∧
      (SC.updateResolve idx old (.response false sb) books).2.countP Notice.isError = 1) ∧
    ((SC.deleteResolve idx old (.response false sb) books).1 =
        (SC.deleteResolve idx old (.netfail msg) books).1 ∧
      (SC.deleteResolve idx old (.response false sb) books).2.countP Notice.isError = 1) ∧
    ((SC.fetchBooks (.response false data) books).1 = books ∧
      (SC.fetchBooks (.response false data) books).2.countP Notice.isError = 1) := by
  refine ⟨⟨rfl, ?_⟩, ⟨rfl, ?_⟩, ⟨rfl, ?_⟩, ⟨rfl, ?_⟩⟩ <;>
    simp [SC.createResolve, SC.updateResolve, SC.deleteResolve, SC.fetchBooks,
      List.countP_cons, Notice.isError]

/-- C6 counterexample: in `pagina-principal.js` a delete on an identity
absent from the store returns silently — the store is untouched and no
network call is made, but no error is reported at all, against the
claim's "reported immediately". -/
theorem delete_absent_silent_cex :
    PP.handleDelete 99 (.netfail "m") [bookA] =
      { store := [bookA], notices := [], calls := [] } := by decide

/-- C6 amended: local errors never mutate the store and never reach the
network: an invalid title (trimmed length < 3) makes the submit handler
stop with exactly one validation alert and no mutation and no call; an
update on an absent identity alerts and changes nothing; a delete on an
absent identity changes nothing and calls nothing but — in
`pagina-principal.js` — reports nothing either (the `script.js` variant
does report it). -/
theorem validation_notfound_no_mutation (f : PP.FormInput) (now : Nat)
    (outcome : FetchOutcome) (books : List Book) (id : Int) (d : BookData)
    (hTitle : (PP.jsTrim f.titulo).length < 3)
    (hAbsent : findByIdentity id books = none) :
    ((PP.formSubmit f now outcome books).store = books ∧
      (PP.formSubmit f now outcome books).calls = [] ∧
      (PP.formSubmit f now outcome books).notices.countP Notice.isError = 1) ∧
    PP.handleUpdate id d outcome books =
      { store := books, notices := [Notice.alert "Livro não encontrado."], calls := [] } ∧
    PP.handleDelete id outcome books = { store := books, notices := [], calls := [] } ∧
    SC.handleDelete id outcome books =
      { store := books
        notices := [Notice.message "Livro para excluir não encontrado." "error"]
        calls := [] } := by
  have hNoIdx : findIndexBy (fun b => b.id == id) books = none := by
    cases hc : findIndexBy (fun b => b.id == id) books with
    | none => rfl
    | some idx =>
      exfalso
      have := find?_of_findIndexBy hc
      rw [findByIdentity, this] at hAbsent
      exact Option.noConfusion hAbsent
  have hErr : ∃ m, PP.formError f = some m := by
    unfold PP.formError
    by_cases hy : PP.isFourDigits (PP.jsTrim f.ano)
    · refine ⟨"O título precisa ter pelo menos 3 caracteres.", ?_⟩
      simp [hy, hTitle]
    · exact ⟨"O ano precisa ter exatamente 4 números.", by simp [hy]⟩
  obtain ⟨m, hm⟩ := hErr
  refine ⟨?_, ?_, ?_, ?_⟩
  · simp [PP.formSubmit, hm, List.countP_cons, Notice.isError]
  · simp [PP.handleUpdate, PP.updateStart, hNoIdx]
  · simp [PP.handleDelete, PP.deleteStart, hNoIdx]
  · simp [SC.handleDelete, SC.deleteStart, SC.findBookIndexById, hNoIdx]

/-- Witness for the amended C6: title `"ab"` on the update form for the
existing identity 5, and operations on the absent identity 99. -/
theorem validation_notfound_no_mutation_witness :
    ((PP.formSubmit ⟨some 5, "ab", "a", "b", "1999", "Romance"⟩ 7 (.netfail "m")
        [book5]).store = [book5] ∧
      (PP.formSubmit ⟨some 5, "ab", "a", "b", "1999", "Romance"⟩ 7 (.netfail "m")
        [book5]).calls = [] ∧
      (PP.formSubmit ⟨some 5, "ab", "a", "b", "1999", "Romance"⟩ 7 (.netfail "m")
        [book5]).notices.countP Notice.isError = 1) ∧
    PP.handleUpdate 99 dUpd (.netfail "m") [book5] =
      { store := [book5], notices := [Notice.alert "Livro não encontrado."], calls := [] } ∧
    PP.handleDelete 99 (.netfail "m") [book5] =
      { store := [book5], notices := [], calls := [] } ∧
    SC.handleDelete 99 (.netfail "m") [book5] =
      { store := [book5]
        notices := [Notice.message "Livro para excluir não encontrado." "error"]
        calls := [] } :=
  validation_notfound_no_mutation ⟨some 5, "ab", "a", "b", "1999", "Romance"⟩ 7
    (.netfail "m") [book5] 99 dUpd (by decide) (by decide)

/-- C9 counterexample: rendering an empty store leaves the previous
snapshot (still holding the removed record) in the slot, because the
empty-store branch returns before `localStorage.setItem`. -/
theorem empty_render_skips_snapshot_cex :
    (PP.renderBooks [] (some [bookA])).2 = some [bookA] ∧
    some [bookA] ≠ some ([] : List Book) := by decide

/-- C9 amended: after a render pass of a non-empty store the snapshot slot
holds the serialization of the full current contents; a render of an
empty store skips the write and leaves the prior snapshot in place. -/
theorem render_nonempty_writes_snapshot (books : List Book)
    (snapshot : Option (List Book)) (hne : books ≠ []) :
    (PP.renderBooks books snapshot).2 = some books ∧
    (PP.renderBooks [] snapshot).2 = snapshot :=
  ⟨renderBooks_snd_of_ne_nil books snapshot hne, by simp [PP.renderBooks]⟩

/-- Witness for the amended C9 at a one-record store. -/
theorem render_nonempty_writes_snapshot_witness :
    (PP.renderBooks [bookA] (some [bookB])).2 = some [bookA] ∧
    (PP.renderBooks [] (some [bookB])).2 = some [bookB] :=
  render_nonempty_writes_snapshot [bookA] (some [bookB]) (by decide)

/-- Modelled from the spec: a rollback/commit that locates its target by
identity in the store current at resolution time (the policy C4 claims
for all operations) — restore `old` at the position the identity occupies
now, or do nothing when the identity is gone. -/
def specRestoreByIdentity (id : Int) (old : Book) (books : List Book) : List Book :=
  match findIndexBy (fun b => b.id == id) books with
  | some idx => books.set idx old
  | none => books

/-- C4 counterexample: start an update of identity 1 on `[bookA]` (cached
index 0), let an optimistic create land at the front while the PUT is in
flight, then fail the PUT.  The rollback writes at the cached index 0,
clobbering the new record and leaving the un-rolled-back optimistic
update in place (two records with identity 1) — not the result of an
identity lookup at resolution time. -/
theorem update_rollback_cached_index_cex :
    PP.updateStart 1 dUpd [bookA] = some (0, bookA, [applyUpdate dUpd bookA]) ∧
    (PP.updateResolve 0 bookA (.netfail "m")
        (PP.createStart 7 dNew [applyUpdate dUpd bookA])).1 =
      [bookA, applyUpdate dUpd bookA] ∧
    specRestoreByIdentity 1 bookA (PP.createStart 7 dNew [applyUpdate dUpd bookA]) =
      [mkOptimistic (-7) dNew, bookA] ∧
    [bookA, applyUpdate dUpd bookA] ≠ [mkOptimistic (-7) dNew, bookA] ∧
    ids (PP.updateResolve 0 bookA (.netfail "m")
        (PP.createStart 7 dNew [applyUpdate dUpd bookA])).1 = [1, 1] := by
  decide

/-- C4 amended: only the create commit consults the store's state at
resolution time — it locates the placeholder by identity and is a no-op
when the placeholder is gone — whereas the update and delete rollbacks
apply the restoration at the index cached before the network call. -/
theorem commit_rollback_target_policy (now : Nat) (sb : SBook) (okFlag : Bool)
    (msg : String) (idx : Nat) (old : Book) (books : List Book)
    (hGone : ∀ b ∈ books, b.id ≠ PP.tempId now) :
    PP.createResolve now (.response okFlag sb) books = (books, []) ∧
    (PP.updateResolve idx old (.netfail msg) books).1 = jsSetAt idx old books ∧
    (PP.deleteResolve idx old (.netfail msg) books).1 = spliceInsert idx old books := by
  refine ⟨?_, rfl, rfl⟩
  have hni : findIndexBy (fun b => b.id == PP.tempId now) books = none :=
    findIndexBy_eq_none.mpr (fun b hb => by simpa using hGone b hb)
  simp [PP.createResolve, hni]

/-- Witness for the amended C4 at concrete stores. -/
theorem commit_rollback_target_policy_witness :
    PP.createResolve 7 (.response true ⟨42, "t", "b"⟩) [bookA] = ([bookA], []) ∧
    (PP.updateResolve 0 bookB (.netfail "m") [bookA]).1 = jsSetAt 0 bookB [bookA] ∧
    (PP.deleteResolve 0 bookB (.netfail "m") [bookA]).1 = spliceInsert 0 bookB [bookA] :=
  commit_rollback_target_policy 7 ⟨42, "t", "b"⟩ true "m" 0 bookB [bookA] (by decide)

/-! ## Sequential reachability of store states (for the uniqueness invariant) -/

/-- One complete operation of `pagina-principal.js` run from store `s` to
its final store: a hydration with distinct identities, or a create /
update / delete running start-to-resolution with no interleaving.  For a
committing create the server identity is assumed fresh. -/
inductive SeqOp : List Book → List Book → Prop
  | hydrate (s new : List Book) (h : (ids new).Nodup) : SeqOp s new
  | create (s : List Book) (now : Nat) (d : BookData) (outcome : FetchOutcome)
      (hSid : ∀ okFlag sb, outcome = FetchOutcome.response okFlag sb → sb.id ∉ ids s) :
      SeqOp s (PP.handleCreate now d outcome s).store
  | update (s : List Book) (id : Int) (d : BookData) (outcome : FetchOutcome) :
      SeqOp s (PP.handleUpdate id d outcome s).store
  | deleteOp (s : List Book) (id : Int) (outcome : FetchOutcome) :
      SeqOp s (PP.handleDelete id outcome s).store

/-- Stores reachable from `s` by a sequence of complete operations. -/
inductive ReachableSeq : List Book → List Book → Prop
  | refl (s : List Book) : ReachableSeq s s
  | step (s t u : List Book) : ReachableSeq s t → SeqOp t u → ReachableSeq s u

theorem seqOp_nodup {s t : List Book} (hop : SeqOp s t) (h : (ids s).Nodup) :
    (ids t).Nodup := by
  cases hop with
  | hydrate _ hn => exact hn
  | create now d outcome hSid =>
    cases outcome with
    | response okFlag sb =>
      have hs : sb.id ∉ ids s := hSid okFlag sb rfl
      have hstore : (PP.handleCreate now d (.response okFlag sb) s).store =
          { mkOptimistic (PP.tempId now) d with id := sb.id } :: s := by
        simp [PP.handleCreate, createResolve_response]
      rw [hstore]
      simp only [ids, List.map_cons, List.nodup_cons]
      exact ⟨by simpa [ids] using hs, by simpa [ids] using h⟩
    | netfail m =>
      have hstore : (PP.handleCreate now d (.netfail m) s).store =
          s.filter (fun b => b.id != PP.tempId now) := by
        simp [PP.handleCreate, PP.createStart, PP.createResolve, mkOptimistic,
          List.filter_cons]
      rw [hstore]
      exact ids_filter_nodup h
  | update id d outcome =>
    cases hc : findIndexBy (fun b => b.id == id) s with
    | none => simpa [PP.handleUpdate, PP.updateStart, hc] using h
    | some idx =>
      have hlt := findIndexBy_lt_length hc
      cases outcome with
      | response okFlag sb =>
        have hstore : (PP.handleUpdate id d (.response okFlag sb) s).store =
            listModify (applyUpdate d) idx s := by
          simp [PP.handleUpdate, PP.updateStart, hc, PP.updateResolve]
        rw [hstore, ids_listModify_applyUpdate]
        exact h
      | netfail m =>
        have hstore : (PP.handleUpdate id d (.netfail m) s).store = s := by
          simp only [PP.handleUpdate, PP.updateStart, hc, PP.updateResolve]
          exact jsSetAt_listModify_restore (applyUpdate d) s idx hlt
        rw [hstore]
        exact h
  | deleteOp id outcome =>
    cases hc : findIndexBy (fun b => b.id == id) s with
    | none => simpa [PP.handleDelete, PP.deleteStart, hc] using h
    | some idx =>
      have hlt := findIndexBy_lt_length hc
      cases outcome with
      | response okFlag sb =>
        have hstore : (PP.handleDelete id (.response okFlag sb) s).store =
            s.eraseIdx idx := by
          simp [PP.handleDelete, PP.deleteStart, hc, PP.deleteResolve]
        rw [hstore]
        exact ids_eraseIdx_nodup h
      | netfail m =>
        have hstore : (PP.handleDelete id (.netfail m) s).store = s := by
          simp only [PP.handleDelete, PP.deleteStart, hc, PP.deleteResolve]
          exact spliceInsert_eraseIdx_restore s idx hlt
        rw [hstore]
        exact h

/-- C7 counterexample: two optimistic creates whose `Date.now()` readings
fall in the same millisecond produce the same placeholder identity, so
with both creates pending the store violates identity uniqueness — the
claim fails for this interleaving. -/
theorem duplicate_placeholder_cex :
    ¬ (ids (PP.createStart 5 dDune (PP.createStart 5 dNew []))).Nodup := by
  decide

/-- C7 amended: identity uniqueness is an invariant of every store
reachable through complete, non-interleaved operations (hydration with
distinct identities, creates whose committed server identity is fresh,
updates, deletes, each with either outcome); under concurrent
interleavings it can fail. -/
theorem store_identities_nodup (s t : List Book) (h : (ids s).Nodup)
    (hr : ReachableSeq s t) : (ids t).Nodup := by
  induction hr with
  | refl => exact h
  | step _ _ _ op ih => exact seqOp_nodup op ih

/-- Witness for the amended C7: a create committed with server identity 42
on the empty store, reached in one step. -/
theorem store_identities_nodup_witness :
    (ids (PP.handleCreate 3 dDune (.response true ⟨42, "t", "b"⟩) []).store).Nodup :=
  store_identities_nodup [] _ (by decide)
    (ReachableSeq.step _ _ _ (ReachableSeq.refl _)
      (SeqOp.create [] 3 dDune (.response true ⟨42, "t", "b"⟩)
        (fun okFlag sb _ => by simp [ids])))

/-! ## Lemmas about positions, identities and `take` (for the view cut-off) -/

theorem getD_mem_int : ∀ (l : List Int) (i : Nat), i < l.length → l.getD i 0 ∈ l := by
  intro l
  induction l with
  | nil => intro i h; simp at h
  | cons a t ih =>
    intro i h
    cases i with
    | zero => simp
    | succ n =>
      simp only [List.length_cons, Nat.succ_lt_succ_iff] at h
      simp only [List.getD_cons_succ, List.mem_cons]
      exact Or.inr (ih n h)

theorem nodup_getD_not_mem_take_int :
    ∀ {l : List Int}, l.Nodup → ∀ i, i < l.length → l.getD i 0 ∉ l.take i := by
  intro l
  induction l with
  | nil => intro _ i h; simp at h
  | cons a t ih =>
    intro hnd i h
    simp only [List.nodup_cons] at hnd
    cases i with
    | zero => simp
    | succ n =>
      simp only [List.length_cons, Nat.succ_lt_succ_iff] at h
      simp only [List.getD_cons_succ, List.take_succ_cons, List.mem_cons, not_or]
      constructor
      · intro heq
        exact hnd.1 (heq ▸ getD_mem_int t n h)
      · exact ih hnd.2 n h

theorem ids_getD : ∀ (l : List Book) (i : Nat), i < l.length →
    (ids l).getD i 0 = (l.getD i default).id := by
  intro l
  induction l with
  | nil => intro i h; simp at h
  | cons b bs ih =>
    intro i h
    cases i with
    | zero => simp [ids]
    | succ n =>
      simp only [List.length_cons, Nat.succ_lt_succ_iff] at h
      simp only [ids, List.map_cons, List.getD_cons_succ]
      exact ih n h

theorem ids_take (l : List Book) (n : Nat) : ids (l.take n) = (ids l).take n := by
  simp [ids, List.map_take]

/-- A fourth sample record, so that concrete stores can reach length 4. -/
def bookC : Book :=
  { id := 3, title := "O Guarani", author := "Alencar", body := "c",
    genre := "Aventura", year := "1857" }

/-- C10: every render pass shows exactly the first four records of the
store in store order, while a render of a non-empty store writes every
record into the snapshot; hence a successful create on a store of at
least four records leaves the previously fourth record — position five
after the commit — present in the store and in the written snapshot but
absent from the view. -/
theorem render_truncates_view_not_snapshot (books : List Book)
    (snap : Option (List Book)) (now : Nat) (d : BookData) (sb : SBook)
    (hNodup : (ids books).Nodup)
    (hSid : ∀ b ∈ books, b.id ≠ sb.id)
    (hLen : 4 ≤ books.length) :
    (∀ bs : List Book, (PP.renderBooks bs snap).1 = bs.take 4) ∧
    (PP.renderBooks (PP.handleCreate now d (.response true sb) books).store snap).2 =
      some (PP.handleCreate now d (.response true sb) books).store ∧
    (PP.handleCreate now d (.response true sb) books).store.getD 4 default =
      books.getD 3 default ∧
    books.getD 3 default ∈ (PP.handleCreate now d (.response true sb) books).store ∧
    books.getD 3 default ∉
      (PP.renderBooks (PP.handleCreate now d (.response true sb) books).store snap).1 := by
  have hfinal : (PP.handleCreate now d (.response true sb) books).store =
      { mkOptimistic (PP.tempId now) d with id := sb.id } :: books := by
    simp [PP.handleCreate, createResolve_response]
  have h3 : 3 < books.length := by omega
  refine ⟨?_, ?_, ?_, ?_, ?_⟩
  · intro bs
    by_cases hb : bs = []
    · subst hb; simp [PP.renderBooks]
    · simp [PP.renderBooks, hb]
  · exact renderBooks_snd_of_ne_nil _ snap (by rw [hfinal]; simp)
  · rw [hfinal]
    simp [List.getD_cons_succ]
  · rw [hfinal]
    exact List.mem_cons_of_mem _ (getD_mem books 3 h3)
  · rw [hfinal]
    have hview : (PP.renderBooks
        ({ mkOptimistic (PP.tempId now) d with id := sb.id } :: books) snap).1 =
        { mkOptimistic (PP.tempId now) d with id := sb.id } :: books.take 3 := by
      simp [PP.renderBooks]
    rw [hview]
    intro hmem
    rcases List.mem_cons.mp hmem with heq | htail
    · have hid : (books.getD 3 default).id = sb.id := by rw [heq]
      exact hSid _ (getD_mem books 3 h3) hid
    · have hidmem : (ids books).getD 3 0 ∈ (ids books).take 3 := by
        rw [ids_getD books 3 h3, ← ids_take]
        exact List.mem_map_of_mem _ htail
      exact nodup_getD_not_mem_take_int hNodup 3 (by simpa [ids] using h3) hidmem

/-- Witness for C10: a four-record store, create committed with server
identity 42. -/
theorem render_truncates_view_not_snapshot_witness :
    (∀ bs : List Book, (PP.renderBooks bs (some [bookA])).1 = bs.take 4) ∧
    (PP.renderBooks (PP.handleCreate 11 dDune (.response true ⟨42, "t", "b"⟩)
        [bookA, bookB, bookC, book5]).store (some [bookA])).2 =
      some (PP.handleCreate 11 dDune (.response true ⟨42, "t", "b"⟩)
        [bookA, bookB, bookC, book5]).store ∧
    (PP.handleCreate 11 dDune (.response true ⟨42, "t", "b"⟩)
        [bookA, bookB, bookC, book5]).store.getD 4 default =
      [bookA, bookB, bookC, book5].getD 3 default ∧
    [bookA, bookB, bookC, book5].getD 3 default ∈
      (PP.handleCreate 11 dDune (.response true ⟨42, "t", "b"⟩)
        [bookA, bookB, bookC, book5]).store ∧
    [bookA, bookB, bookC, book5].getD 3 default ∉
      (PP.renderBooks (PP.handleCreate 11 dDune (.response true ⟨42, "t", "b"⟩)
        [bookA, bookB, bookC, book5]).store (some [bookA])).1 :=
  render_truncates_view_not_snapshot [bookA, bookB, bookC, book5] (some [bookA])
    11 dDune ⟨42, "t", "b"⟩ (by decide) (by decide) (by decide)
